import Mathlib

set_option autoImplicit false

/-!
Verification of the guide-locus homology scorer in
`src/scripts/pairwise_homology.py`: window extraction, the
guide-strand-offset search loop, mismatch counting, PAM detection and
best-hit selection, shallowly embedded over `List Char` sequences with
rational alignment scores.
-/

namespace PairwiseHomology

/-- Result of one local alignment: the two gap-padded aligned strings and the
alignment score (Biopython `pairwise2` returns `seqA`, `seqB`, `score`). -/
structure AlignmentResult where
  seqA : List Char
  seqB : List Char
  score : Rat
deriving DecidableEq

/-- Embeds the `Hit` namedtuple of `pairwise_homology.py` (line 36):
`guide_id strand offset score mm_total mm_seed aln_query aln_sub`. -/
structure Hit where
  guide_id : String
  strand : String
  offset : Int
  score : Rat
  mm_total : Nat
  mm_seed : Nat
  aln_query : List Char
  aln_sub : List Char
deriving DecidableEq

/-- One output row of the script (line 161): `site_id, guide_id, strand,
genome_offset, mm_total, mm_seed, score, pam_present, aln_guide, aln_locus`.
The score is kept exact; decimal formatting of the TSV cell is output I/O,
out of scope per spec section 1. -/
structure OutputRecord where
  site_id : String
  guide_id : String
  strand : String
  genome_offset : Int
  mm_total : Nat
  mm_seed : Nat
  score : Rat
  pam_present : Bool
  aln_guide : List Char
  aln_locus : List Char
deriving DecidableEq

/-- Watson-Crick complement of one uppercase nucleotide character; other
characters map to themselves (windows are fetched uppercased). -/
def complement (c : Char) : Char :=
  if c = 'A' then 'T'
  else if c = 'T' then 'A'
  else if c = 'C' then 'G'
  else if c = 'G' then 'C'
  else c

/-- Embeds `revcomp` (line 42): reverse complement of a DNA sequence. -/
def revcomp (s : List Char) : List Char :=
  (s.map complement).reverse

/-- Python slice `s[-3:]`: the last three characters, or the whole string
when it is shorter than three. -/
def lastThree (s : List Char) : List Char :=
  s.drop (s.length - 3)

/-- Python substring containment `pat in s`. -/
def containsSeq (pat s : List Char) : Bool :=
  s.tails.any (fun t => pat.isPrefixOf t)

/-- Embeds `pam_in_window` (line 77):
`("GG" in window[-3:]) or ("AG" in window[-3:])`. -/
def pam_in_window (window : List Char) : Bool :=
  containsSeq ['G', 'G'] (lastThree window) || containsSeq ['A', 'G'] (lastThree window)

/-- Embeds the mismatch count of lines 143-144:
`sum(b1 != b2 for b1, b2 in zip(a, b))`. -/
def countMM (a b : List Char) : Nat :=
  (a.zip b).countP (fun p => decide (p.1 ≠ p.2))

/-- Type of the Local Alignment Engine: `pairwise2.align.localms(q, s, 1, -1,
-0.8, -0.5, one_alignment_only=True)[0]` is external to `src/`; the search
loop is embedded parametrically in the engine. -/
def AlignFn : Type :=
  List Char → List Char → AlignmentResult

/-- Embeds line 129: the two (strand, subject) pairs
`[("+", window), ("-", revcomp(window))]`. -/
def strandSubjects (window : List Char) : List (String × List Char) :=
  [("+", window), ("-", revcomp window)]

/-- Embeds the inner offset loop (lines 131-153): `for offset in
range(len(seq) - 20)`, extract `sub = seq[offset:offset+20]`, align, count
mismatches, and record a `Hit` with genome-relative offset `offset - 100`. -/
def offsetHits (align : AlignFn) (gid : String) (gseq : List Char)
    (strand : String) (subject : List Char) : List Hit :=
  (List.range (subject.length - 20)).map (fun offset =>
    let sub := (subject.drop offset).take 20
    let aln := align gseq sub
    { guide_id := gid
      strand := strand
      offset := (offset : Int) - 100
      score := aln.score
      mm_total := countMM aln.seqA aln.seqB
      mm_seed := countMM (aln.seqA.take 8) (aln.seqB.take 8)
      aln_query := aln.seqA
      aln_sub := aln.seqB })

/-- Embeds the strand loop for one guide (lines 126-129), including the
`str(g.seq).upper()` normalisation of the guide sequence. -/
def guideHits (align : AlignFn) (window : List Char) (g : String × List Char) : List Hit :=
  (strandSubjects window).flatMap (fun st => offsetHits align g.1 (g.2.map Char.toUpper) st.1 st.2)

/-- Embeds the full enumeration for one site (lines 125-153), in
guide-then-strand-then-offset order. -/
def siteHits (align : AlignFn) (guides : List (String × List Char))
    (window : List Char) : List Hit :=
  guides.flatMap (guideHits align window)

/-- Embeds the best-hit update of lines 152-153:
`if (best_hit is None) or (hit.score > best_hit.score): best_hit = hit`. -/
def betterHit (best : Option Hit) (h : Hit) : Option Hit :=
  match best with
  | none => some h
  | some b => if b.score < h.score then some h else some b

/-- The running best over the enumerated hits, starting from `None`. -/
def bestHit (hits : List Hit) : Option Hit :=
  hits.foldl betterHit none

/-- Embeds lines 156-166: if a best hit exists, slice
`window[best.offset+100+17 : best.offset+100+20]` out of the original
forward-strand window, run the PAM check on it, and emit the record. -/
def processSite (align : AlignFn) (guides : List (String × List Char))
    (siteId : String) (window : List Char) : Option OutputRecord :=
  match bestHit (siteHits align guides window) with
  | none => none
  | some b =>
    let lo := (b.offset + 100 + 17).toNat
    let hi := (b.offset + 100 + 20).toNat
    some { site_id := siteId
           guide_id := b.guide_id
           strand := b.strand
           genome_offset := b.offset
           mm_total := b.mm_total
           mm_seed := b.mm_seed
           score := b.score
           pam_present := pam_in_window ((window.drop lo).take (hi - lo))
           aln_guide := b.aln_query
           aln_locus := b.aln_sub }

/-- Modelled from the spec: the Sequence Window Provider (pyfaidx `Fasta`
access, not under `src/`); spec section 6: returns the bases in
`[start, stop)`, clipped silently at the sequence boundaries. -/
def fetch (chromSeq : List Char) (start stop : Int) : List Char :=
  let lo := start.toNat
  let hi := (min stop (chromSeq.length : Int)).toNat
  (chromSeq.drop lo).take (hi - lo)

/-- Embeds lines 117-121: `center = (start + end) // 2`. -/
def siteCenter (start stop : Nat) : Nat :=
  (start + stop) / 2

/-- Embeds line 121: `window = fa[chrom][center-100 : center+100]`. -/
def extractWindow (chromSeq : List Char) (center : Nat) : List Char :=
  fetch chromSeq ((center : Int) - 100) ((center : Int) + 100)

/-- Embeds the main loop over candidate sites (lines 113-166): each site is a
(site_id, window) pair and contributes at most one output row, in input
order. -/
def runPipeline (align : AlignFn) (guides : List (String × List Char))
    (sites : List (String × List Char)) : List OutputRecord :=
  sites.filterMap (fun s => processSite align guides s.1 s.2)

/-! ### Demo inputs used by witness theorems -/

/-- Degenerate alignment engine: constant result, used to instantiate the
engine-parametric theorems at concrete inputs. -/
def alignConst : AlignFn :=
  fun _ _ => { seqA := ['A'], seqB := ['A'], score := 1 }

/-- Engine that echoes both inputs unaligned with score 0, used to
instantiate theorems needing input-dependent aligned strings. -/
def alignEcho : AlignFn :=
  fun q s => { seqA := q, seqB := s, score := 0 }

/-- A 20-nucleotide guide sequence. -/
def g20 : List Char :=
  ['C', 'G', 'T', 'A', 'C', 'G', 'T', 'A', 'C', 'G', 'T', 'A', 'C', 'G', 'T', 'A', 'C', 'G', 'T', 'A']

/-- A window of length exactly 20. -/
def w20 : List Char :=
  ['A', 'C', 'G', 'T', 'A', 'C', 'G', 'T', 'A', 'C', 'G', 'T', 'A', 'C', 'G', 'T', 'A', 'C', 'G', 'T']

/-- A window of length 21. -/
def w21 : List Char :=
  'G' :: w20

/-! ### Helper lemmas -/

theorem revcomp_length (s : List Char) : (revcomp s).length = s.length := by
  simp [revcomp]

/-- The genome-relative offsets recorded along one strand scan are exactly
the raw offsets `range(len(subject) - 20)`, shifted by `-100`. -/
theorem offsetHits_map_offset (align : AlignFn) (gid : String) (gseq : List Char)
    (strand : String) (subject : List Char) :
    (offsetHits align gid gseq strand subject).map Hit.offset
      = (List.range (subject.length - 20)).map (fun o : Nat => (o : Int) - 100) := by
  simp only [offsetHits, List.map_map]
  rfl

theorem offsetHits_eq_nil (align : AlignFn) (gid : String) (gseq : List Char)
    (strand : String) (subject : List Char) (h : subject.length ≤ 20) :
    offsetHits align gid gseq strand subject = [] := by
  simp [offsetHits, Nat.sub_eq_zero_of_le h]

theorem siteHits_eq_nil (align : AlignFn) (guides : List (String × List Char))
    (window : List Char) (h : window.length ≤ 20) :
    siteHits align guides window = [] := by
  simp only [siteHits, List.flatMap_eq_nil_iff]
  intro g hg
  simp only [guideHits, strandSubjects, List.flatMap_cons, List.flatMap_nil, List.append_nil]
  rw [offsetHits_eq_nil, offsetHits_eq_nil] <;> simp [revcomp_length, h]

theorem processSite_eq_none (align : AlignFn) (guides : List (String × List Char))
    (siteId : String) (window : List Char) (h : window.length ≤ 20) :
    processSite align guides siteId window = none := by
  rw [processSite, siteHits_eq_nil align guides window h]
  rfl

/-- Behaviour of the running-best fold started from an already-chosen hit
`a`: either nothing beats `a`, or the result is the first strict improver of
the running maximum, every earlier element scoring strictly below it. -/
theorem foldl_betterHit_spec (l : List Hit) (a b : Hit)
    (h : l.foldl betterHit (some a) = some b) :
    (b = a ∧ ∀ x ∈ l, x.score ≤ a.score)
    ∨ (a.score < b.score ∧ ∃ l1 l2, l = l1 ++ b :: l2
        ∧ (∀ x ∈ l1, x.score < b.score) ∧ (∀ x ∈ l2, x.score ≤ b.score)) := by
  induction l generalizing a with
  | nil =>
    simp only [List.foldl_nil, Option.some.injEq] at h
    exact Or.inl ⟨h.symm, by simp⟩
  | cons hd tl ih =>
    rw [List.foldl_cons] at h
    by_cases hc : a.score < hd.score
    · rw [show betterHit (some a) hd = some hd by simp [betterHit, hc]] at h
      rcases ih hd h with ⟨rfl, hall⟩ | ⟨hlt, l1, l2, heq, h1, h2⟩
      · exact Or.inr ⟨hc, [], tl, rfl, by simp, hall⟩
      · refine Or.inr ⟨hc.trans hlt, hd :: l1, l2, by rw [heq]; rfl, ?_, h2⟩
        intro x hx
        rcases List.mem_cons.mp hx with rfl | hx
        · exact hlt
        · exact h1 x hx
    · rw [show betterHit (some a) hd = some a by simp [betterHit, hc]] at h
      rcases ih a h with ⟨rfl, hall⟩ | ⟨hlt, l1, l2, heq, h1, h2⟩
      · refine Or.inl ⟨rfl, ?_⟩
        intro x hx
        rcases List.mem_cons.mp hx with rfl | hx
        · exact le_of_not_lt hc
        · exact hall x hx
      · refine Or.inr ⟨hlt, hd :: l1, l2, by rw [heq]; rfl, ?_, h2⟩
        intro x hx
        rcases List.mem_cons.mp hx with rfl | hx
        · exact lt_of_le_of_lt (le_of_not_lt hc) hlt
        · exact h1 x hx

/-- The selected best hit splits the enumeration into a strictly-worse part
before it and a no-better part after it. -/
theorem bestHit_firstMax (l : List Hit) (b : Hit) (h : bestHit l = some b) :
    ∃ l1 l2, l = l1 ++ b :: l2
      ∧ (∀ x ∈ l1, x.score < b.score) ∧ (∀ x ∈ l2, x.score ≤ b.score) := by
  cases l with
  | nil => simp [bestHit] at h
  | cons hd tl =>
    have h' : tl.foldl betterHit (some hd) = some b := h
    rcases foldl_betterHit_spec tl hd b h' with ⟨rfl, hall⟩ | ⟨hlt, l1, l2, heq, h1, h2⟩
    · exact ⟨[], tl, rfl, by simp, hall⟩
    · refine ⟨hd :: l1, l2, by rw [heq]; rfl, ?_, h2⟩
      intro x hx
      rcases List.mem_cons.mp hx with rfl | hx
      · exact hlt
      · exact h1 x hx

theorem bestHit_mem (l : List Hit) (b : Hit) (h : bestHit l = some b) : b ∈ l := by
  obtain ⟨l1, l2, rfl, -, -⟩ := bestHit_firstMax l b h
  exact List.mem_append.mpr (Or.inr (List.mem_cons_self b l2))

theorem bestHit_le (l : List Hit) (b : Hit) (h : bestHit l = some b) :
    ∀ x ∈ l, x.score ≤ b.score := by
  obtain ⟨l1, l2, rfl, h1, h2⟩ := bestHit_firstMax l b h
  intro x hx
  rcases List.mem_append.mp hx with hx | hx
  · exact le_of_lt (h1 x hx)
  · rcases List.mem_cons.mp hx with rfl | hx
    · exact le_refl _
    · exact h2 x hx

/-- Every enumerated hit carries a genome-relative offset of at least `-100`
(the raw sliding offset is a natural number). -/
theorem siteHits_offset_ge (align : AlignFn) (guides : List (String × List Char))
    (window : List Char) : ∀ h ∈ siteHits align guides window, -100 ≤ h.offset := by
  intro h hmem
  simp only [siteHits, guideHits, strandSubjects, offsetHits, List.mem_flatMap,
    List.mem_map, List.mem_range, List.mem_cons, List.mem_singleton,
    List.not_mem_nil, or_false] at hmem
  obtain ⟨g, -, st, -, o, -, rfl⟩ := hmem
  simp only [Int.add_comm]
  omega

/-! ### Claim C1 -/

/-- Claim C1 is false as stated: a window of length exactly 20 is "of length
at least 20", yet the loop `for offset in range(len(seq) - 20)` enumerates no
offset at all (the final 20-mer at `len - 20 = 0` is skipped) and the site
yields no hit, where the claim promises offset 0 is aligned and only windows
strictly shorter than 20 yield no hit. -/
theorem C1_counterexample :
    w20.length = 20
    ∧ siteHits alignConst [("g1", g20)] w20 = []
    ∧ processSite alignConst ([("g1", g20)]) "s1" w20 = none := by
  decide

/-- Claim C1 (amended): for each guide and each strand the search enumerates
exactly the offsets `0 .. len(subject) - 21` (`range(len - 20)`), so the
final 20-mer starting at `len - 20` is never aligned, and every window of
length at most 20 (not just strictly less than 20) yields no hit. -/
theorem C1_offsets_enumerated (align : AlignFn) (gid : String) (gseq : List Char)
    (window : List Char) :
    (siteHits align [(gid, gseq)] window).map Hit.offset
      = ((List.range (window.length - 20)).map (fun o : Nat => (o : Int) - 100))
        ++ ((List.range (window.length - 20)).map (fun o : Nat => (o : Int) - 100))
    ∧ (∀ guides, window.length ≤ 20 → siteHits align guides window = []) := by
  constructor
  · simp only [siteHits, guideHits, strandSubjects, List.flatMap_cons, List.flatMap_nil,
      List.append_nil, List.map_append, offsetHits_map_offset, revcomp_length]
  · intro guides h
    exact siteHits_eq_nil align guides window h

/-- Witness for C1: concrete evaluations of the amended statement at a
length-20 and a length-21 window. -/
theorem C1_witness :
    siteHits alignConst [("g1", g20)] w20 = []
    ∧ (siteHits alignConst [("g1", g20)] w21).map Hit.offset = [-100, -100] := by
  constructor
  · exact (C1_offsets_enumerated alignConst "g1" g20 w20).2 [("g1", g20)] (by decide)
  · rw [(C1_offsets_enumerated alignConst "g1" g20 w21).1]
    decide

/-! ### Claim C2 -/

/-- Claim C2 is false as stated: on the 3-character input "GGA" the detector
returns true, although the last two of the three characters are "GA" —
neither "GG" nor "AG" (the claim's own GGX shape with X = 'A'). -/
theorem C2_counterexample :
    pam_in_window ['G', 'G', 'A'] = true
    ∧ (['G', 'G', 'A'] : List Char).drop 1 ≠ ['G', 'G']
    ∧ (['G', 'G', 'A'] : List Char).drop 1 ≠ ['A', 'G'] := by
  decide

/-- Claim C2 (amended): on a window ending in the three characters
`c1 c2 c3` the detector returns true iff "GG" or "AG" occurs as a contiguous
pair somewhere in that 3-character suffix — at its last two positions or at
its first two; an input ending in "TTT" therefore still yields false. -/
theorem C2_pam_characterisation (p : List Char) (c1 c2 c3 : Char) :
    pam_in_window (p ++ [c1, c2, c3]) = true ↔
      ((c1 = 'G' ∧ c2 = 'G') ∨ (c1 = 'A' ∧ c2 = 'G')
        ∨ (c2 = 'G' ∧ c3 = 'G') ∨ (c2 = 'A' ∧ c3 = 'G')) := by
  have h3 : lastThree (p ++ [c1, c2, c3]) = [c1, c2, c3] := by
    simp [lastThree]
  rw [pam_in_window, h3]
  simp only [containsSeq, List.tails, List.any_cons, List.any_nil,
    List.isPrefixOf_cons₂, List.isPrefixOf_cons_nil, List.isPrefixOf_nil_left,
    Bool.and_true, Bool.and_false, Bool.or_false, Bool.false_or,
    Bool.or_eq_true, Bool.and_eq_true, beq_iff_eq]
  constructor
  · intro h
    tauto
  · intro h
    tauto

/-- Witness for C2: the amended characterisation evaluated at a window
ending in "AGG" (true, an NAG/NGG pattern) and one ending in "TTT" (false). -/
theorem C2_witness :
    pam_in_window (['T'] ++ ['A', 'G', 'G']) = true
    ∧ pam_in_window (([] : List Char) ++ ['T', 'T', 'T']) = false := by
  constructor
  · exact (C2_pam_characterisation ['T'] 'A' 'G' 'G').mpr (Or.inr (Or.inl ⟨rfl, rfl⟩))
  · cases hb : pam_in_window (([] : List Char) ++ ['T', 'T', 'T'])
    · rfl
    · exact absurd ((C2_pam_characterisation [] 'T' 'T' 'T').mp hb) (by decide)

/-! ### Claim C8 -/

/-- Claim C8 is false as stated: when the PAM slice `window[o : o+3]` is
shorter than 3, the detector does not always return false — the 2-character
extraction "AG" returns true. -/
theorem C8_counterexample :
    ((['C', 'A', 'G'] : List Char).drop 1).take 3 = ['A', 'G']
    ∧ (['A', 'G'] : List Char).length < 3
    ∧ pam_in_window ['A', 'G'] = true := by
  decide

/-- Claim C8 (amended): on an extraction shorter than 3 characters the
detector still returns a boolean rather than failing, but it applies the
same substring test to the short string: it returns true exactly for the
length-2 inputs "GG" and "AG", and false for every other short input. -/
theorem C8_short_input (w : List Char) (hw : w.length < 3) :
    pam_in_window w = true ↔ (w = ['G', 'G'] ∨ w = ['A', 'G']) := by
  match w, hw with
  | [], _ =>
    decide
  | [c], _ =>
    simp [pam_in_window, lastThree, containsSeq, List.tails,
      List.isPrefixOf_cons₂, List.isPrefixOf_cons_nil]
  | [c1, c2], _ =>
    simp only [pam_in_window, lastThree, List.length_cons, List.length_nil,
      Nat.zero_add, Nat.reduceAdd, Nat.reduceSub, List.drop_zero,
      containsSeq, List.tails, List.any_cons, List.any_nil,
      List.isPrefixOf_cons₂, List.isPrefixOf_cons_nil, List.isPrefixOf_nil_left,
      Bool.and_true, Bool.and_false, Bool.or_false, Bool.false_or,
      Bool.or_eq_true, Bool.and_eq_true, beq_iff_eq, List.cons.injEq, and_true]
    constructor
    · rintro (⟨h1, h2⟩ | ⟨h1, h2⟩) <;> subst_vars <;> simp
    · rintro (⟨h1, h2⟩ | ⟨h1, h2⟩) <;> subst_vars <;> simp

/-- Witness for C8: the amended statement applied at the concrete short
inputs "AG" (true) and at length-2 evidence discharging the hypothesis. -/
theorem C8_witness : pam_in_window ['A', 'G'] = true :=
  (C8_short_input ['A', 'G'] (by decide)).mpr (Or.inr rfl)

/-! ### Claim C3 -/

/-- Claim C3: whenever a best hit exists, the emitted record's pam_present
field is exactly the PAM check applied to the original forward-strand
window — whatever the winning strand — on the 3-character slice starting at
window position best.genome_relative_offset + 100 + 17. -/
theorem C3_pam_forward_window (align : AlignFn) (guides : List (String × List Char))
    (siteId : String) (window : List Char) (b : Hit)
    (hb : bestHit (siteHits align guides window) = some b) :
    ∃ r, processSite align guides siteId window = some r
      ∧ r.pam_present = pam_in_window ((window.drop (b.offset + 117).toNat).take 3)
      ∧ r.strand = b.strand ∧ r.genome_offset = b.offset ∧ r.score = b.score := by
  have hmem : b ∈ siteHits align guides window := bestHit_mem _ _ hb
  have hoff : -100 ≤ b.offset := siteHits_offset_ge align guides window b hmem
  simp only [processSite, hb]
  refine ⟨_, rfl, ?_, rfl, rfl, rfl⟩
  rw [show (b.offset + 100 + 17 : Int) = b.offset + 117 by omega,
    show (b.offset + 100 + 20).toNat - (b.offset + 117).toNat = 3 by omega]

/-- Witness for C3: a concrete site whose best hit is on the + strand with
genome-relative offset -100, evaluated end to end. -/
theorem C3_witness :
    ∃ r, processSite alignConst [("g1", g20)] "s1" w21 = some r
      ∧ r.pam_present = pam_in_window ((w21.drop ((-100 : Int) + 117).toNat).take 3)
      ∧ r.strand = "+" ∧ r.genome_offset = (-100 : Int) ∧ r.score = 1 :=
  C3_pam_forward_window alignConst [("g1", g20)] "s1" w21
    ⟨"g1", "+", -100, 1, 0, 0, ['A'], ['A']⟩ (by decide)

/-! ### Claim C4 -/

/-- Claim C4: the extracted window is the reference subsequence spanning
[center-100, center+100) clipped to the chromosome bounds: its length is at
most 200, its i-th character is the chromosome character at in-bounds
position (center-100, clipped at 0) + i — never an out-of-bounds access and
never a base from another region — and a window clipped to 20 or fewer
bases yields a no-hit result for the site rather than a crash. -/
theorem C4_window_clipped (chromSeq : List Char) (center : Nat) :
    (extractWindow chromSeq center).length ≤ 200
    ∧ (∀ i, i < (extractWindow chromSeq center).length →
        center - 100 + i < chromSeq.length
        ∧ (extractWindow chromSeq center).getD i 'X' = chromSeq.getD (center - 100 + i) 'X')
    ∧ (∀ align guides siteId, (extractWindow chromSeq center).length ≤ 20 →
        processSite align guides siteId (extractWindow chromSeq center) = none) := by
  have hlo : ((center : Int) - 100).toNat = center - 100 := by omega
  have hw : extractWindow chromSeq center
      = (chromSeq.drop (center - 100)).take
          ((min ((center : Int) + 100) (chromSeq.length : Int)).toNat - (center - 100)) := by
    rw [extractWindow, fetch, hlo]
  have hlen : (extractWindow chromSeq center).length
      = min ((min ((center : Int) + 100) (chromSeq.length : Int)).toNat - (center - 100))
          (chromSeq.length - (center - 100)) := by
    rw [hw, List.length_take, List.length_drop]
  refine ⟨?_, ?_, ?_⟩
  · rw [hlen]
    omega
  · intro i hi
    have hi' : i < (min ((center : Int) + 100) (chromSeq.length : Int)).toNat - (center - 100) := by
      rw [hlen] at hi
      omega
    constructor
    · rw [hlen] at hi
      omega
    · rw [hw, List.getD_eq_getElem?_getD, List.getD_eq_getElem?_getD,
        List.getElem?_take_of_lt hi', List.getElem?_drop]
  · intro align guides siteId hshort
    exact processSite_eq_none align guides siteId _ hshort

/-- The 29-base chromosome of the end-to-end scenario in spec section 8. -/
def chr29 : List Char :=
  ['A', 'A', 'A', 'A', 'A', 'C', 'G', 'T', 'A', 'C', 'G', 'T', 'A', 'C', 'G', 'T', 'A', 'C', 'G', 'T', 'A', 'A', 'A', 'G', 'G', 'A', 'A', 'A', 'A']

/-- Witness for C4: the scenario chromosome with center 15 (left-edge
clipping: the window is the whole 29-base chromosome, read from position 0),
and a 20-base chromosome whose clipped window produces no hit. -/
theorem C4_witness :
    (extractWindow chr29 15).length ≤ 200
    ∧ (15 - 100 + 3 < chr29.length
        ∧ (extractWindow chr29 15).getD 3 'X' = chr29.getD (15 - 100 + 3) 'X')
    ∧ processSite alignConst [("g1", g20)] "s1" (extractWindow w20 10) = none :=
  ⟨(C4_window_clipped chr29 15).1,
    (C4_window_clipped chr29 15).2.1 3 (by decide),
    (C4_window_clipped w20 10).2.2 alignConst [("g1", g20)] "s1" (by decide)⟩

/-! ### Claim C5 -/

/-- Claim C5: the running best is replaced only on strictly greater score,
so the selected hit is the earliest-enumerated among those attaining the
maximal score: the enumeration (in guide-then-strand-then-offset order)
splits as l1 ++ best :: l2 with every hit in l1 scoring strictly less and
every hit in l2 scoring no more. -/
theorem C5_tie_break (align : AlignFn) (guides : List (String × List Char))
    (window : List Char) (b : Hit)
    (hb : bestHit (siteHits align guides window) = some b) :
    ∃ l1 l2, siteHits align guides window = l1 ++ b :: l2
      ∧ (∀ x ∈ l1, x.score < b.score)
      ∧ (∀ x ∈ l2, x.score ≤ b.score) :=
  bestHit_firstMax _ b hb

/-- Witness for C5: two guides producing identical scores everywhere (a
four-way tie); the selected hit is the very first enumerated one — guide
"g1", strand "+", raw offset 0 — so the strictly-worse part before it is
forced to be empty. -/
theorem C5_witness :
    ∃ l1 l2,
      siteHits alignConst [("g1", g20), ("g2", g20)] w21
        = l1 ++ (⟨"g1", "+", -100, 1, 0, 0, ['A'], ['A']⟩ : Hit) :: l2
      ∧ (∀ x ∈ l1, x.score < (1 : Rat))
      ∧ (∀ x ∈ l2, x.score ≤ (1 : Rat)) :=
  C5_tie_break alignConst [("g1", g20), ("g2", g20)] w21
    ⟨"g1", "+", -100, 1, 0, 0, ['A'], ['A']⟩ (by decide)

/-! ### Claim C6 -/

/-- Claim C6: every emitted record reports a score at least as large as the
score of every (guide, strand, offset) combination enumerated for the site:
the reported score is the maximum over the explored search space. -/
theorem C6_score_is_max (align : AlignFn) (guides : List (String × List Char))
    (siteId : String) (window : List Char) (r : OutputRecord)
    (hr : processSite align guides siteId window = some r) :
    ∀ h ∈ siteHits align guides window, h.score ≤ r.score := by
  cases hbest : bestHit (siteHits align guides window) with
  | none =>
    simp only [processSite, hbest] at hr
    exact Option.noConfusion hr
  | some b =>
    have hle := bestHit_le _ b hbest
    simp only [processSite, hbest, Option.some.injEq] at hr
    intro h hmem
    rw [← hr]
    exact hle h hmem

/-- Witness for C6: the record emitted for a concrete site scores no less
than each of the two enumerated hits. -/
theorem C6_witness :
    (⟨"g1", "+", -100, 1, 0, 0, ['A'], ['A']⟩ : Hit).score ≤
      (⟨"s1", "g1", "+", -100, 0, 0, 1, false, ['A'], ['A']⟩ : OutputRecord).score :=
  C6_score_is_max alignConst [("g1", g20)] "s1" w21
    ⟨"s1", "g1", "+", -100, 0, 0, 1, false, ['A'], ['A']⟩ (by decide)
    ⟨"g1", "+", -100, 1, 0, 0, ['A'], ['A']⟩ (by decide)

/-! ### Claim C7 -/

/-- Modelled from the spec (section 4.2): the count of aligned-column
indices at which the two aligned strings differ, over the full aligned
length; the refinement target for the zip-based count in the code. -/
def specMismatchCount (a b : List Char) : Nat :=
  ((List.range a.length).filter (fun i => a.getD i 'X' != b.getD i 'X')).length

theorem specMismatchCount_cons (x y : Char) (xs ys : List Char) :
    specMismatchCount (x :: xs) (y :: ys)
      = specMismatchCount xs ys + (if x = y then 0 else 1) := by
  rw [specMismatchCount, List.length_cons, List.range_succ_eq_map, List.filter_cons,
    List.filter_map]
  have hfun : ((fun i => (x :: xs).getD i 'X' != (y :: ys).getD i 'X') ∘ Nat.succ)
      = (fun i => xs.getD i 'X' != ys.getD i 'X') := by
    funext i
    simp
  rw [hfun, specMismatchCount]
  by_cases hxy : x = y
  · simp [hxy]
  · simp [hxy, bne_iff_ne, Nat.add_comm]

theorem countMM_eq_spec (a : List Char) (b : List Char) (h : a.length = b.length) :
    countMM a b = specMismatchCount a b := by
  induction a generalizing b with
  | nil =>
    cases b with
    | nil => rfl
    | cons y ys => simp at h
  | cons x xs ih =>
    cases b with
    | nil => simp at h
    | cons y ys =>
      have h' : xs.length = ys.length := by simpa using h
      rw [countMM, List.zip_cons_cons, List.countP_cons, specMismatchCount_cons]
      have hx : countMM xs ys = specMismatchCount xs ys := ih ys h'
      rw [countMM] at hx
      rw [hx]
      by_cases hxy : x = y
      · simp [hxy]
      · simp [hxy]

theorem countMM_le_left (a b : List Char) : countMM a b ≤ a.length := by
  rw [countMM]
  calc List.countP (fun p => decide (p.1 ≠ p.2)) (a.zip b) ≤ (a.zip b).length :=
    List.countP_le_length _
  _ ≤ a.length := by rw [List.length_zip]; omega

theorem countMM_take_le (a b : List Char) (n : Nat) :
    countMM (a.take n) (b.take n) ≤ countMM a b := by
  rw [countMM, countMM]
  have hz : (a.take n).zip (b.take n) = (a.zip b).take n := (List.take_zipWith).symm
  rw [hz]
  exact List.Sublist.countP_le _ (List.take_sublist _ _)

/-- Claim C7: with an engine returning equal-length aligned strings (the
engine contract of spec section 4.1), every enumerated hit's mm_total is the
count of differing aligned columns over the full aligned length, mm_seed is
the same count over aligned columns 0-7 (or the available length if
shorter), and mm_seed ≤ mm_total ≤ aligned length. -/
theorem C7_mismatch_invariants (align : AlignFn)
    (halign : ∀ q s, (align q s).seqA.length = (align q s).seqB.length)
    (guides : List (String × List Char)) (window : List Char) :
    ∀ h ∈ siteHits align guides window,
      h.mm_total = specMismatchCount h.aln_query h.aln_sub
      ∧ h.mm_seed = specMismatchCount (h.aln_query.take 8) (h.aln_sub.take 8)
      ∧ h.mm_seed ≤ h.mm_total
      ∧ h.mm_total ≤ h.aln_query.length := by
  intro h hmem
  simp only [siteHits, guideHits, strandSubjects, offsetHits, List.mem_flatMap,
    List.mem_map, List.mem_range, List.mem_cons, List.not_mem_nil, or_false] at hmem
  obtain ⟨g, -, st, -, o, -, rfl⟩ := hmem
  refine ⟨countMM_eq_spec _ _ (halign _ _), countMM_eq_spec _ _ ?_,
    countMM_take_le _ _ _, countMM_le_left _ _⟩
  rw [List.length_take, List.length_take, halign]

/-- Witness for C7: the invariant chain evaluated on a concrete enumerated
hit produced by a constant engine. -/
theorem C7_witness :
    (⟨"g1", "+", -100, 1, 0, 0, ['A'], ['A']⟩ : Hit).mm_seed
      ≤ (⟨"g1", "+", -100, 1, 0, 0, ['A'], ['A']⟩ : Hit).mm_total :=
  (C7_mismatch_invariants alignConst (fun _ _ => rfl) [("g1", g20)] w21
    ⟨"g1", "+", -100, 1, 0, 0, ['A'], ['A']⟩ (by decide)).2.2.1

/-! ### Claim C9 -/

/-- Modelled from the spec: one step of Biopython SeqIO.parse over a FASTA
file (Guide Catalog interface, section 6 — SeqIO is not under `src/`). A
line opening with the record marker starts a new record named by the text up
to the first whitespace; any other line extends the current record's
sequence; data before any header is ignored. Records accumulate in reverse
order. -/
def fastaFold (acc : List (String × List Char)) (line : List Char) : List (String × List Char) :=
  if line.head? = some '>' then
    (String.mk ((line.drop 1).takeWhile (fun c => !c.isWhitespace)), []) :: acc
  else
    match acc with
    | [] => []
    | (nm, s) :: rest => (nm, s ++ line) :: rest

/-- Modelled from the spec: the full FASTA parse, records in file order. -/
def parseFasta (lines : List (List Char)) : List (String × List Char) :=
  (lines.foldl fastaFold []).reverse

/-- Embeds `load_guides` (line 46): `[rec for rec in SeqIO.parse(...)]` —
every parsed record is returned unchanged; the function performs no
validation of any kind. -/
def load_guides (lines : List (List Char)) : List (String × List Char) :=
  parseFasta lines

/-- Membership in the nucleotide alphabet. -/
def isNucleotide (c : Char) : Bool :=
  c == 'A' || c == 'C' || c == 'G' || c == 'T'

/-- Modelled from the spec (section 7): the validating loader the spec
describes, which fails with a ValidationError when some guide has length ≠
20 or a non-nucleotide character — the refinement target that `load_guides`
is compared against. -/
def specLoadGuides (lines : List (List Char)) : Except String (List (String × List Char)) :=
  let recs := parseFasta lines
  if recs.all (fun r => r.2.length == 20 && r.2.all isNucleotide) then Except.ok recs
  else Except.error "ValidationError"

/-- Sequence lines that do not open new records extend the current record
in place. -/
theorem foldl_fastaFold_seq (seqLines : List (List Char)) (nm : String) (s : List Char)
    (hseq : ∀ l ∈ seqLines, l.head? ≠ some '>') :
    seqLines.foldl fastaFold [(nm, s)] = [(nm, s ++ seqLines.flatten)] := by
  induction seqLines generalizing s with
  | nil => simp
  | cons l ls ih =>
    have hl : fastaFold [(nm, s)] l = [(nm, s ++ l)] := by
      rw [fastaFold, if_neg (hseq l (List.mem_cons_self l ls))]
    rw [List.foldl_cons, hl, ih (s ++ l) (fun x hx => hseq x (List.mem_cons_of_mem l hx))]
    simp

/-- Claim C9 is false as stated: the 3-nucleotide guide record `g1 / CGT` is
returned successfully by `load_guides` — no validation error occurs at load
time — while the spec's validating loader rejects exactly this input. -/
theorem C9_counterexample :
    load_guides [['>', 'g', '1'], ['C', 'G', 'T']]
      = [(String.mk ['g', '1'], ['C', 'G', 'T'])]
    ∧ specLoadGuides [['>', 'g', '1'], ['C', 'G', 'T']]
      = Except.error "ValidationError" := by
  constructor
  · rfl
  · rfl

/-- Claim C9 (amended): `load_guides` returns the parsed (id, sequence)
records in file order and performs no validation whatsoever — a malformed
sequence of any length and alphabet is returned as-is and never causes a
failure. -/
theorem C9_no_validation (id : List Char) (seqLines : List (List Char))
    (hid : ∀ c ∈ id, ¬ c.isWhitespace)
    (hseq : ∀ l ∈ seqLines, l.head? ≠ some '>') :
    load_guides (('>' :: id) :: seqLines) = [(String.mk id, seqLines.flatten)] := by
  have hhead : fastaFold [] ('>' :: id) = [(String.mk id, [])] := by
    have hcond : ('>' :: id).head? = some '>' := rfl
    rw [fastaFold, if_pos hcond]
    have : id.takeWhile (fun c => !c.isWhitespace) = id := by
      rw [List.takeWhile_eq_self_iff]
      intro c hc
      simpa using hid c hc
    simp [this]
  rw [load_guides, parseFasta, List.foldl_cons, hhead, foldl_fastaFold_seq seqLines _ _ hseq]
  simp

/-- Witness for C9: the amended statement evaluated on the malformed
single-record catalog `g1 / CGT`. -/
theorem C9_witness :
    load_guides [['>', 'g', '1'], ['C', 'G', 'T']]
      = [(String.mk ['g', '1'], [['C', 'G', 'T']].flatten)] :=
  C9_no_validation ['g', '1'] [['C', 'G', 'T']] (by decide) (by decide)

/-! ### Claim C10 -/

/-- Claim C10: the pipeline output is a deterministic function of its
inputs: with the same engine (itself a function returning exactly one
alignment result per input pair), the same guide catalog and the same
candidate sites, two runs produce identical output tables. -/
theorem C10_deterministic (align : AlignFn)
    (guides guides' : List (String × List Char))
    (sites sites' : List (String × List Char))
    (hg : guides = guides') (hs : sites = sites') :
    runPipeline align guides sites = runPipeline align guides' sites' := by
  rw [hg, hs]

/-- Witness for C10: two runs on the same concrete inputs coincide. -/
theorem C10_witness :
    runPipeline alignConst [("g1", g20)] [("s1", w21)]
      = runPipeline alignConst [("g1", g20)] [("s1", w21)] :=
  C10_deterministic alignConst [("g1", g20)] [("g1", g20)]
    [("s1", w21)] [("s1", w21)] rfl rfl

end PairwiseHomology
